import Mathlib

/-
Verification of the pywwt Windows-client example notebook
(src/examples/windows/pywwt_example.ipynb).

The notebook is a straight-line script: it constructs a client handle,
creates a layer, sets its properties, activates it, reads four datasets
from an HDF5 file, converts units and coordinates, maps a scalar field to
colors, updates the layer with a fly-to command, and queries the state.

We embed the script as (1) a concrete list of events, in the order the
cells execute, and (2) parametric definitions of the data pipeline,
with the file contents and the unit-conversion factor as parameters,
using exact rationals for the numeric literals of the script.
-/

namespace PyWWTExample

/-- One operation issued by the example script, in program order.
The client constructor is distinguished from the high-level client and
layer method calls; file operations carry the dataset or file name;
calls into the scientific libraries are recorded by name. -/
inductive Event where
  | constructClient : Event
  | clientMethod : String → Event
  | fileOpen : String → Event
  | fileRead : String → Event
  | fileClose : Event
  | libCall : String → Event
deriving DecidableEq

/-- The full trace of the example notebook, cell by cell: construct the
client, create the layer, set its properties, activate it, open the HDF5
file, obtain the unit-conversion factor, read the four datasets, map the
scalar field to colors, convert the coordinates, close the file, update
the layer, and query the state. -/
def scriptTrace : List Event :=
  [ Event.constructClient,
    Event.clientMethod "new_layer",
    Event.clientMethod "set_properties",
    Event.clientMethod "activate",
    Event.fileOpen "radio_halo_1kpc_hdf5_part_0200_reduced.h5",
    Event.libCall "u.Mpc.to",
    Event.fileRead "x",
    Event.fileRead "y",
    Event.fileRead "z",
    Event.fileRead "radio",
    Event.libCall "map_array_to_colors",
    Event.libCall "convert_xyz_to_spherical",
    Event.fileClose,
    Event.clientMethod "update",
    Event.clientMethod "get_state" ]

/-- The method name of a high-level client or layer method call event. -/
def methodOf : Event → Option String
  | Event.clientMethod m => some m
  | _ => none

/-- The sequence of high-level client and layer method calls of a trace. -/
def clientMethods (t : List Event) : List String :=
  t.filterMap methodOf

/-- The sequence of dataset names read from the file by a trace. -/
def fieldsRead (t : List Event) : List String :=
  t.filterMap (fun e => match e with
    | Event.fileRead s => some s
    | _ => none)

/-- A Python value as it appears in the script: the property values are
all string literals, but a dictionary could in principle also bind
numbers or booleans, so the value type keeps those alternatives. -/
inductive PyVal where
  | str : String → PyVal
  | num : ℚ → PyVal
  | boolean : Bool → PyVal
deriving DecidableEq

/-- Whether a Python value is a string. -/
def isStringVal : PyVal → Bool
  | PyVal.str _ => true
  | _ => false

/-- The props_dict literal of the notebook, key by key in source order. -/
def props_dict : List (String × PyVal) :=
  [ ("CoordinatesType", PyVal.str "Spherical"),
    ("MarkerScale", PyVal.str "Screen"),
    ("PointScaleType", PyVal.str "Constant"),
    ("ScaleFactor", PyVal.str "16"),
    ("ShowFarSide", PyVal.str "True"),
    ("TimeSeries", PyVal.str "False"),
    ("AltUnit", PyVal.str "MegaParsecs"),
    ("RaUnits", PyVal.str "Degrees") ]

/-- The frame, layer name and field list passed to new_layer. -/
def new_layer_frame : String := "Sky"

/-- The layer name passed to new_layer. -/
def new_layer_name : String := "minihalo"

/-- The field list passed to new_layer. -/
def new_layer_fields : List String := ["RA", "DEC", "ALT", "color"]

/-- The fly_to argument of layer.update, translating the source literals
48., -12., 6.0e11, 0., 0. into exact rationals. -/
def script_fly_to : List ℚ := [48, -12, 6 * 10 ^ 11, 0, 0]

/-- The purge_all argument of layer.update. -/
def script_purge_all : Bool := true

/-- The state of the external file handle while the script runs. -/
inductive FHandle where
  | start : FHandle
  | opened : FHandle
  | closed : FHandle
deriving DecidableEq

/-- Whether an event touches the external file handle. -/
def isFileOp : Event → Bool
  | Event.fileOpen _ => true
  | Event.fileRead _ => true
  | Event.fileClose => true
  | _ => false

/-- One step of the file-handle discipline: a file may only be opened
from the initial state, only read or closed while open, and never
touched again after the close; any event that is not a file operation
leaves the handle state unchanged. An illegal access yields none. -/
def fileStep : FHandle → Event → Option FHandle
  | FHandle.start, Event.fileOpen _ => some FHandle.opened
  | FHandle.start, e => if isFileOp e then none else some FHandle.start
  | FHandle.opened, Event.fileRead _ => some FHandle.opened
  | FHandle.opened, Event.fileClose => some FHandle.closed
  | FHandle.opened, Event.fileOpen _ => none
  | FHandle.opened, _ => some FHandle.opened
  | FHandle.closed, e => if isFileOp e then none else some FHandle.closed

/-- Running the file-handle discipline over a whole trace. -/
def runFile (t : List Event) : Option FHandle :=
  t.foldlM fileStep FHandle.start

/-- How many events of a trace open the file. -/
def countOpens (t : List Event) : Nat :=
  (t.filter (fun e => match e with
    | Event.fileOpen _ => true
    | _ => false)).length

/-- How many events of a trace close the file. -/
def countCloses (t : List Event) : Nat :=
  (t.filter (fun e => match e with
    | Event.fileClose => true
    | _ => false)).length

/-- The contents of the HDF5 file as the script sees them: four
one-dimensional datasets, the Cartesian coordinates in centimeters and
the radio emissivity. The file contents are a parameter of the
embedding, since the file itself ships outside the repository. -/
structure FileData where
  x : List ℚ
  y : List ℚ
  z : List ℚ
  radioData : List ℚ

/-- The array bound to x in the notebook: the x dataset of the file with
every entry divided by the centimeters-per-megaparsec factor. -/
def script_x (fd : FileData) (cmPerMpc : ℚ) : List ℚ :=
  fd.x.map (fun v => v / cmPerMpc)

/-- The array bound to y in the notebook. -/
def script_y (fd : FileData) (cmPerMpc : ℚ) : List ℚ :=
  fd.y.map (fun v => v / cmPerMpc)

/-- The array bound to z in the notebook. -/
def script_z (fd : FileData) (cmPerMpc : ℚ) : List ℚ :=
  fd.z.map (fun v => v / cmPerMpc)

/-- The array bound to c in the notebook: the radio dataset, unscaled. -/
def script_c (fd : FileData) : List ℚ :=
  fd.radioData

/-- The argument tuple of the map_array_to_colors call site. -/
structure ColorsCallArgs where
  cArg : List ℚ
  cmapArg : String
  scaleArg : String
  vminArg : ℚ
  vmaxArg : ℚ
deriving DecidableEq

/-- The arguments the notebook passes to map_array_to_colors,
translating the source literals 1.0e-40 and 4.0e-23 into exact
rationals. -/
def script_colors_call (fd : FileData) : ColorsCallArgs :=
  ⟨script_c fd, "spectral", "log", 1 / 10 ^ 40, 4 / 10 ^ 23⟩

/-- The argument tuple of the convert_xyz_to_spherical call site. -/
structure SphericalCallArgs where
  xArg : List ℚ
  yArg : List ℚ
  zArg : List ℚ
deriving DecidableEq

/-- The arguments the notebook passes to convert_xyz_to_spherical: the
three coordinate arrays after the unit division. -/
def script_spherical_call (fd : FileData) (cmPerMpc : ℚ) : SphericalCallArgs :=
  ⟨script_x fd cmPerMpc, script_y fd cmPerMpc, script_z fd cmPerMpc⟩

/-- A number a is the radial distance of the Cartesian point (x, y, z)
when it is nonnegative and its square is the sum of the squared
coordinates. This characterizes the altitude of the spherical
conversion without leaving the rationals. -/
def IsRadialDistance (a x y z : ℚ) : Prop :=
  0 ≤ a ∧ a ^ 2 = x ^ 2 + y ^ 2 + z ^ 2

/-- Clamping a value to the interval from vmin to vmax, as the clip step
of the color-mapping utility does. -/
def clip (vmin vmax v : ℚ) : ℚ :=
  max vmin (min vmax v)

/-- Modelled from the spec: the implementation of map_array_to_colors is
not under src (only its call site is); the spec states that the
color-mapping utility returns an array of the same length as its scalar
input, clamped to the given min and max before the color lookup. The
color-table lookup itself, which the spec does not describe, is
abstracted as a function argument taking the color-map name, the scale
mode and the clamped value. -/
def map_array_to_colors {α : Type} (lookup : String → String → ℚ → α)
    (c : List ℚ) (cmap : String) (scale : String) (vmin vmax : ℚ) : List α :=
  c.map (fun v => lookup cmap scale (clip vmin vmax v))

/-- Modelled from the spec: convert_xyz_to_spherical is not under src
(only its call site is); per the spec glossary the conversion yields an
(RA, DEC, altitude) triple, so its result is a mapping with exactly the
keys RA, DEC and ALT. -/
def spherical_result_keys : List String := ["RA", "DEC", "ALT"]

/-- The keys of the data dict the notebook passes to update: the keys of
the spherical-conversion result, with the color key added explicitly by
the assignment in the data cell. -/
def script_data_keys : List String :=
  spherical_result_keys ++ ["color"]

/-- Modelled from the spec: the layer and its update method live outside
src (only the call site is shown); the notebook documents purge_all=True
as eliminating the data already in the layer before the supplied data is
added, so the layer contents are a list of rows, an update appends the
supplied rows, and a purging update discards the previous rows first. -/
def updateLayer {α : Type} (purgeAll : Bool) (newData : List α)
    (contents : List α) : List α :=
  (if purgeAll then [] else contents) ++ newData

/-- C1: the script issues exactly the five high-level client and layer
method calls new_layer, set_properties, activate, update, get_state,
each exactly once in that order; every other event of the trace is the
constructor, a file operation or a library call, so no other client- or
layer-mutating method call occurs in between. -/
theorem client_method_sequence :
    clientMethods scriptTrace =
      ["new_layer", "set_properties", "activate", "update", "get_state"] ∧
    (clientMethods scriptTrace).Nodup := by
  decide

/-- C3: the script reads exactly the four datasets x, y, z and radio from
the hierarchical array file, in that order, and no other dataset. -/
theorem datasets_read :
    fieldsRead scriptTrace = ["x", "y", "z", "radio"] := by
  decide

/-- C2: the property-configuration mapping passed to set_properties has
exactly the eight keys CoordinatesType, MarkerScale, PointScaleType,
ScaleFactor, ShowFarSide, TimeSeries, AltUnit, RaUnits, with no
duplicate key, each key bound to the stated string value, and every
value in the mapping is a string. -/
theorem props_dict_contents :
    props_dict.map Prod.fst =
      ["CoordinatesType", "MarkerScale", "PointScaleType", "ScaleFactor",
       "ShowFarSide", "TimeSeries", "AltUnit", "RaUnits"] ∧
    (props_dict.map Prod.fst).Nodup ∧
    List.lookup "CoordinatesType" props_dict = some (PyVal.str "Spherical") ∧
    List.lookup "MarkerScale" props_dict = some (PyVal.str "Screen") ∧
    List.lookup "PointScaleType" props_dict = some (PyVal.str "Constant") ∧
    List.lookup "ScaleFactor" props_dict = some (PyVal.str "16") ∧
    List.lookup "ShowFarSide" props_dict = some (PyVal.str "True") ∧
    List.lookup "TimeSeries" props_dict = some (PyVal.str "False") ∧
    List.lookup "AltUnit" props_dict = some (PyVal.str "MegaParsecs") ∧
    List.lookup "RaUnits" props_dict = some (PyVal.str "Degrees") ∧
    props_dict.all (fun kv => isStringVal kv.snd) = true := by
  decide

/-- C4: the fly_to argument of update is a vector of exactly five
numbers, in the order target latitude 48, target longitude -12, zoom
level 6.0e11, rotation 0, viewing angle 0. -/
theorem fly_to_vector :
    script_fly_to.length = 5 ∧
    script_fly_to.get? 0 = some 48 ∧
    script_fly_to.get? 1 = some (-12) ∧
    script_fly_to.get? 2 = some 600000000000 ∧
    script_fly_to.get? 3 = some 0 ∧
    script_fly_to.get? 4 = some 0 := by
  refine ⟨rfl, rfl, rfl, ?_, rfl, rfl⟩
  show some ((6 : ℚ) * 10 ^ 11) = some 600000000000
  norm_num

/-- C7: over the whole run the file-handle discipline is respected and
ends with the file closed: the file is opened exactly once and closed
exactly once, every read of the four datasets x, y, z, radio happens
while the file is open (hence between the open and the close), and no
file access occurs after the close. -/
theorem file_handle_discipline :
    runFile scriptTrace = some FHandle.closed ∧
    countOpens scriptTrace = 1 ∧
    countCloses scriptTrace = 1 ∧
    fieldsRead scriptTrace = ["x", "y", "z", "radio"] := by
  decide

/-- C5: the AltUnit property is the string MegaParsecs, every coordinate
array handed to the coordinate-conversion utility is the corresponding
file dataset with each entry divided by the centimeters-per-megaparsec
factor, and dividing a Cartesian point by a positive factor divides its
radial distance by the same factor, so the altitude values derived from
the passed coordinates are the file distances expressed in megaparsecs. -/
theorem coordinates_converted_to_megaparsecs (fd : FileData) (k a x y z : ℚ)
    (hk : 0 < k) (h : IsRadialDistance a x y z) :
    List.lookup "AltUnit" props_dict = some (PyVal.str "MegaParsecs") ∧
    (script_spherical_call fd k).xArg = fd.x.map (fun v => v / k) ∧
    (script_spherical_call fd k).yArg = fd.y.map (fun v => v / k) ∧
    (script_spherical_call fd k).zArg = fd.z.map (fun v => v / k) ∧
    IsRadialDistance (a / k) (x / k) (y / k) (z / k) := by
  refine ⟨by decide, rfl, rfl, rfl, div_nonneg h.1 hk.le, ?_⟩
  rw [div_pow, div_pow, div_pow, div_pow, h.2]
  ring

/-- Witness for C5 at the point (3, 4, 0) with radial distance 5 and
conversion factor 2. -/
theorem coordinates_converted_to_megaparsecs_witness :
    0 < (2 : ℚ) ∧ IsRadialDistance 5 3 4 0 ∧
    (List.lookup "AltUnit" props_dict = some (PyVal.str "MegaParsecs") ∧
     (script_spherical_call (FileData.mk [1] [1] [1] [1]) 2).xArg =
       [(1 : ℚ)].map (fun v => v / 2) ∧
     (script_spherical_call (FileData.mk [1] [1] [1] [1]) 2).yArg =
       [(1 : ℚ)].map (fun v => v / 2) ∧
     (script_spherical_call (FileData.mk [1] [1] [1] [1]) 2).zArg =
       [(1 : ℚ)].map (fun v => v / 2) ∧
     IsRadialDistance (5 / 2) (3 / 2) (4 / 2) (0 / 2)) :=
  ⟨by norm_num, ⟨by norm_num, by norm_num [IsRadialDistance]⟩,
    coordinates_converted_to_megaparsecs (FileData.mk [1] [1] [1] [1]) 2 5 3 4 0
      (by norm_num) ⟨by norm_num, by norm_num [IsRadialDistance]⟩⟩

/-- C6: the color-mapping call site receives the radio array, the color
scale named spectral, logarithmic scaling and the clamp bounds 1.0e-40
and 4.0e-23, and the coordinate-conversion call site receives exactly
the three unit-divided coordinate arrays. -/
theorem call_site_arguments (fd : FileData) (k : ℚ) :
    script_colors_call fd =
      ⟨fd.radioData, "spectral", "log", 1 / 10 ^ 40, 4 / 10 ^ 23⟩ ∧
    script_spherical_call fd k =
      ⟨fd.x.map (fun v => v / k), fd.y.map (fun v => v / k),
       fd.z.map (fun v => v / k)⟩ :=
  ⟨rfl, rfl⟩

/-- C8: the color-mapping utility returns an array of the same length as
its scalar input, each output entry is the color lookup of the clamped
corresponding input entry, and the clamp keeps every value between the
given vmin and vmax bounds. -/
theorem map_colors_length_and_clip {α : Type}
    (lookup : String → String → ℚ → α) (c : List ℚ) (cmap scale : String)
    (vmin vmax v : ℚ) (i : Nat) (hvm : vmin ≤ vmax) :
    (map_array_to_colors lookup c cmap scale vmin vmax).length = c.length ∧
    (map_array_to_colors lookup c cmap scale vmin vmax).get? i =
      (c.get? i).map (fun w => lookup cmap scale (clip vmin vmax w)) ∧
    vmin ≤ clip vmin vmax v ∧ clip vmin vmax v ≤ vmax := by
  refine ⟨List.length_map _ _, ?_, le_max_left _ _,
    max_le hvm (min_le_left _ _)⟩
  simp [map_array_to_colors]

/-- Witness for C8 with the identity lookup on a one-element array and
bounds 1 and 2. -/
theorem map_colors_length_and_clip_witness :
    (1 : ℚ) ≤ 2 ∧
    ((map_array_to_colors (fun _ _ q => q) [3] "spectral" "log" 1 2).length =
       [(3 : ℚ)].length ∧
     (map_array_to_colors (fun _ _ q => q) [3] "spectral" "log" 1 2).get? 0 =
       ([(3 : ℚ)].get? 0).map (fun w => clip 1 2 w) ∧
     (1 : ℚ) ≤ clip 1 2 5 ∧ clip 1 2 5 ≤ 2) :=
  ⟨by norm_num,
    map_colors_length_and_clip (fun _ _ q => q) [3] "spectral" "log" 1 2 5 0
      (by norm_num)⟩

/-- C9: the field names declared at layer creation are exactly the keys
of the data dict later passed to update: the spherical conversion
contributes RA, DEC and ALT, the color key is added explicitly, both
lists are duplicate-free and they are permutations of each other. -/
theorem layer_fields_match_data_keys :
    script_data_keys.Perm new_layer_fields ∧
    script_data_keys.Nodup ∧ new_layer_fields.Nodup := by
  refine ⟨?_, by decide, by decide⟩
  decide

/-- C10: the script calls update with purge_all set to true, and a
purging update makes the layer contents equal the supplied data alone,
so the result is the same for any two prior layer contents. -/
theorem purge_all_update_forgets_prior {α : Type} (s1 s2 d : List α) :
    script_purge_all = true ∧
    updateLayer script_purge_all d s1 = d ∧
    updateLayer script_purge_all d s1 = updateLayer script_purge_all d s2 := by
  refine ⟨rfl, ?_, ?_⟩ <;> simp [updateLayer, script_purge_all]

end PyWWTExample
